import Mathlib

/-!
Shallow embedding of the hotkey-triggered capture-and-dispatch engine of
vibe-local (src/vibe_local): the chord matcher and key-state trackers
(hotkeys.py), the audio recorder (audio.py), the transcription entry point
(transcribe.py) and the coordinator (main.py).  Audio samples are modelled
as rationals (idealized real arithmetic for the per-sample averaging);
external collaborators (whisper engine, LLM calls, clipboard, injection,
history) are oracles that either return a value or raise, modelled with
`Except String`.
-/

/-- `HotkeyAction` enum from hotkeys.py. -/
inductive HotkeyAction
  | transcribe
  | rewrite
  | contextReply
deriving DecidableEq, Repr

/-- `HotkeyEvent` dataclass from hotkeys.py: an action plus
`pressed` (true = pressed, false = released). -/
structure HotkeyEvent where
  action : HotkeyAction
  pressed : Bool
deriving DecidableEq, Repr

/-- `HotkeyListener._check_hotkeys` (identical in the evdev and the pynput
listener).  The python loop iterates over the `self._hotkeys` dict in
insertion order, reading and mutating `self._active_hotkey` as it goes and
emitting events; here the table is an association list in that order, the
active hotkey is threaded through the recursion and the emitted events are
returned in emission order. -/
def checkHotkeys {K : Type} [DecidableEq K] (pressed : Finset K) (isPress : Bool) :
    List (HotkeyAction × Finset K) → Option HotkeyAction →
      Option HotkeyAction × List HotkeyEvent
  | [], act => (act, [])
  | (action, keys) :: rest, act =>
    if keys ⊆ pressed then
      if isPress ∧ act = none then
        let r := checkHotkeys pressed isPress rest (some action)
        (r.1, ⟨action, true⟩ :: r.2)
      else
        checkHotkeys pressed isPress rest act
    else if act = some action ∧ isPress = false then
      let r := checkHotkeys pressed isPress rest none
      (r.1, ⟨action, false⟩ :: r.2)
    else
      checkHotkeys pressed isPress rest act

/-- Mutable listener state shared by `_read_device` / `_check_hotkeys` in the
evdev listener: `self._pressed_keys` (a set of evdev key codes) and
`self._active_hotkey`. -/
structure EvdevState where
  pressedKeys : Finset Nat
  activeHotkey : Option HotkeyAction
deriving DecidableEq

/-- One iteration of `HotkeyListener._read_device`'s event loop (evdev
listener): on `event.value == 1` add `event.code` to the pressed set and run
`_check_hotkeys(is_press=True)`; on `event.value == 0` discard the code and
run `_check_hotkeys(is_press=False)`; other values (key auto-repeat) are
ignored.  No normalization is applied to the raw code.  Returns the new
state and the emitted events. -/
def evdevKeyEvent (hotkeys : List (HotkeyAction × Finset Nat)) (s : EvdevState)
    (code : Nat) (value : Nat) : EvdevState × List HotkeyEvent :=
  if value = 1 then
    let pressed := insert code s.pressedKeys
    let r := checkHotkeys pressed true hotkeys s.activeHotkey
    (⟨pressed, r.1⟩, r.2)
  else if value = 0 then
    let pressed := s.pressedKeys.erase code
    let r := checkHotkeys pressed false hotkeys s.activeHotkey
    (⟨pressed, r.1⟩, r.2)
  else
    (s, [])

/-- The pynput key objects the Windows/macOS listener manipulates:
the eight modifier members of `keyboard.Key` named in `_normalize_key`,
any other `keyboard.Key` member, a `keyboard.KeyCode` (character key), and
a value that is neither (for which `_normalize_key` returns `None`). -/
inductive PKey
  | ctrl_l
  | ctrl_r
  | shift_l
  | shift_r
  | alt_l
  | alt_r
  | cmd
  | cmd_r
  | otherKey (n : Nat)
  | keyCode (c : Char)
  | unknown
deriving DecidableEq, Repr

/-- `HotkeyListener._normalize_key` (pynput listener): left/right Ctrl,
Shift and Alt collapse to the left variant, `cmd`/`cmd_r` collapse to
`cmd`; every other `Key` and every `KeyCode` maps to itself; anything else
yields `None`. -/
def normalizeKey : PKey → Option PKey
  | .ctrl_l => some .ctrl_l
  | .ctrl_r => some .ctrl_l
  | .shift_l => some .shift_l
  | .shift_r => some .shift_l
  | .alt_l => some .alt_l
  | .alt_r => some .alt_l
  | .cmd => some .cmd
  | .cmd_r => some .cmd
  | .otherKey n => some (.otherKey n)
  | .keyCode c => some (.keyCode c)
  | .unknown => none

/-- Mutable state of the pynput listener: `self._pressed_keys` (a set of
normalized pynput keys) and `self._active_hotkey`. -/
structure PynputState where
  pressedKeys : Finset PKey
  activeHotkey : Option HotkeyAction
deriving DecidableEq

/-- `HotkeyListener._on_press` (pynput listener): normalize the key, and if
the result is not `None`, add it to the pressed set and run
`_check_hotkeys(is_press=True)`. -/
def onPress (hotkeys : List (HotkeyAction × Finset PKey)) (s : PynputState)
    (key : PKey) : PynputState × List HotkeyEvent :=
  match normalizeKey key with
  | none => (s, [])
  | some k =>
    let pressed := insert k s.pressedKeys
    let r := checkHotkeys pressed true hotkeys s.activeHotkey
    (⟨pressed, r.1⟩, r.2)

/-- `HotkeyListener._on_release` (pynput listener): normalize the key, and
if the result is not `None`, discard it from the pressed set and run
`_check_hotkeys(is_press=False)`. -/
def onRelease (hotkeys : List (HotkeyAction × Finset PKey)) (s : PynputState)
    (key : PKey) : PynputState × List HotkeyEvent :=
  match normalizeKey key with
  | none => (s, [])
  | some k =>
    let pressed := s.pressedKeys.erase k
    let r := checkHotkeys pressed false hotkeys s.activeHotkey
    (⟨pressed, r.1⟩, r.2)

/-- One block delivered by the sounddevice `InputStream` callback: a
`(frames, channels)` float array, modelled row-major as a list of rows,
each row holding one sample per channel (samples idealized as rationals). -/
abbrev Frame := List (List ℚ)

/-- Per-row channel average: `audio_data.mean(axis=1)` applied to one row. -/
def rowMean (r : List ℚ) : ℚ := r.sum / r.length

/-- The data transformation inside `AudioRecorder.stop` (audio.py): if no
frames were accumulated return an empty array, otherwise concatenate the
frames along axis 0 (which preserves arrival order) and down-mix the
resulting 2-D array to mono with `mean(axis=1)`. -/
def stopData (frames : List Frame) : List ℚ :=
  if frames = [] then [] else (frames.flatten).map rowMean

/-- State of `AudioRecorder` (audio.py): the `self._recording` flag and the
accumulated `self._frames` list.  The lock, the sounddevice stream handle
and the sample-rate/channel config are not part of the data semantics
modelled here; the lock's guarantee appears as the atomicity of each
transition. -/
structure AudioRecorder where
  recording : Bool
  frames : List Frame
deriving DecidableEq

/-- `AudioRecorder._audio_callback`: append a copy of the incoming block to
`self._frames` iff `self._recording` is set. -/
def AudioRecorder.audioCallback (r : AudioRecorder) (indata : Frame) : AudioRecorder :=
  if r.recording then { r with frames := r.frames ++ [indata] } else r

/-- `AudioRecorder.start`: clear the frame list and set the recording flag
(the stream is then opened and started). -/
def AudioRecorder.start (_ : AudioRecorder) : AudioRecorder :=
  { recording := true, frames := [] }

/-- `AudioRecorder.stop`: clear the recording flag, close the stream, drain
the frame list and return the flattened mono data (see `stopData`). -/
def AudioRecorder.stop (r : AudioRecorder) : AudioRecorder × List ℚ :=
  ({ recording := false, frames := [] }, stopData r.frames)

/-- State of `PushToTalkRecorder` (audio.py): the wrapped `AudioRecorder`
and the `self._is_active` flag.  `startCalls` / `stopCalls` count the calls
made to `self._recorder.start()` / `.stop()` (instrumentation only; they
influence nothing).  `main.py` constructs it without an `on_complete`
callback, so that hook is not modelled. -/
structure PushToTalkRecorder where
  recorder : AudioRecorder
  isActive : Bool
  startCalls : Nat
  stopCalls : Nat
deriving DecidableEq

/-- `PushToTalkRecorder.press`: if not already active, mark active and call
`self._recorder.start()`; otherwise do nothing. -/
def PushToTalkRecorder.press (p : PushToTalkRecorder) : PushToTalkRecorder :=
  if p.isActive then p
  else { p with isActive := true, recorder := p.recorder.start,
                startCalls := p.startCalls + 1 }

/-- `PushToTalkRecorder.release`: if active, mark inactive, call
`self._recorder.stop()` and return the audio data; otherwise return
`None`. -/
def PushToTalkRecorder.release (p : PushToTalkRecorder) :
    PushToTalkRecorder × Option (List ℚ) :=
  if p.isActive then
    let r := p.recorder.stop
    ({ p with isActive := false, recorder := r.1, stopCalls := p.stopCalls + 1 },
     some r.2)
  else (p, none)

/-- Python `str.strip()`: drop whitespace from both ends (structurally
recursive over the character list, so the kernel can evaluate it). -/
def strTrim (s : String) : String :=
  ⟨((s.data.dropWhile Char.isWhitespace).reverse.dropWhile Char.isWhitespace).reverse⟩

/-- Python slicing `s[:n]`: the first `n` characters. -/
def strTake (s : String) (n : Nat) : String := ⟨s.data.take n⟩

/-- The faster-whisper engine as an oracle: given the audio samples it
either raises or returns the list of segment texts. -/
structure WhisperEngine where
  segments : List ℚ → Except String (List String)

/-- `transcribe` (transcribe.py): a zero-length input returns the empty
string at once; otherwise the model is obtained and consulted, and the
segment texts are stripped and joined with single spaces.  The second
component counts interactions with the external engine (model lookup and
transcription call), instrumentation only. -/
def transcribe (eng : WhisperEngine) (audioData : List ℚ) :
    Except String String × Nat :=
  if audioData.length = 0 then (.ok "", 0)
  else
    match eng.segments audioData with
    | .error e => (.error e, 1)
    | .ok segs => (.ok (String.intercalate " " (segs.map strTrim)), 1)

/-- The external collaborators `VibeLocal._process_audio` calls into
(llm.py, input_sim.py, history.py), each modelled as an oracle that either
returns a value or raises. -/
structure Collaborators where
  engine : WhisperEngine
  improveTranscription : String → Except String String
  rewriteText : String → String → Except String String
  contextReplyText : String → String → Except String String
  getSelection : Except String String
  getClipboard : Except String String
  typeText : String → Except String Unit
  historyAdd : String → String → String → Except String Unit

/-- Observable effects of one `_process_audio` run: the desktop
notifications issued (in order), the texts injected via `type_text`, and
the history entries written as (raw, final, action-tag) triples. -/
structure PipelineLog where
  notifications : List String
  typed : List String
  history : List (String × String × String)
deriving DecidableEq, Repr

/-- `self._notify(message)`: append one notification to the log. -/
def PipelineLog.notify (l : PipelineLog) (m : String) : PipelineLog :=
  { l with notifications := l.notifications ++ [m] }

/-- The body of the `try:` block of `VibeLocal._process_audio` (main.py):
notify "Transcribing...", transcribe, bail out with a "No speech detected"
notification on empty/whitespace text, then branch on the action.  Returns
the effect log together with `some e` when a collaborator raised `e` at
that point (propagating to the outer handler), `none` on normal return.
An action of `none` matches none of the three `if`/`elif` branches and
falls through. -/
def processAudioBody (c : Collaborators) (audioData : List ℚ)
    (action : Option HotkeyAction) : PipelineLog × Option String :=
  let log0 : PipelineLog := { notifications := ["Transcribing..."], typed := [], history := [] }
  match (transcribe c.engine audioData).1 with
  | .error e => (log0, some e)
  | .ok text =>
    if strTrim text = "" then (log0.notify "No speech detected", none)
    else
      match action with
      | some .transcribe =>
        let log1 := log0.notify "Cleaning up..."
        match c.improveTranscription text with
        | .error e => (log1, some e)
        | .ok cleaned =>
          let log2 := log1.notify ("Typing: " ++ strTake cleaned 50 ++ "...")
          match c.typeText cleaned with
          | .error e => (log2, some e)
          | .ok _ =>
            let log3 := { log2 with typed := log2.typed ++ [cleaned] }
            match c.historyAdd text cleaned "transcribe" with
            | .error e => (log3, some e)
            | .ok _ =>
              ({ log3 with history := log3.history ++ [(text, cleaned, "transcribe")] }, none)
      | some .rewrite =>
        match c.getSelection with
        | .error e => (log0, some e)
        | .ok sel0 =>
          match (if sel0 = "" then c.getClipboard else .ok sel0) with
          | .error e => (log0, some e)
          | .ok sel =>
            if sel = "" then (log0.notify "No text selected to rewrite", none)
            else
              let log1 := log0.notify "Rewriting..."
              match c.rewriteText sel text with
              | .error e => (log1, some e)
              | .ok rewritten =>
                let log2 := log1.notify ("Typing: " ++ strTake rewritten 50 ++ "...")
                match c.typeText rewritten with
                | .error e => (log2, some e)
                | .ok _ =>
                  let log3 := { log2 with typed := log2.typed ++ [rewritten] }
                  match c.historyAdd text rewritten "rewrite" with
                  | .error e => (log3, some e)
                  | .ok _ =>
                    ({ log3 with history := log3.history ++ [(text, rewritten, "rewrite")] }, none)
      | some .contextReply =>
        match c.getClipboard with
        | .error e => (log0, some e)
        | .ok context =>
          if context = "" then (log0.notify "No context in clipboard", none)
          else
            let log1 := log0.notify "Generating reply..."
            match c.contextReplyText context text with
            | .error e => (log1, some e)
            | .ok reply =>
              let log2 := log1.notify ("Typing: " ++ strTake reply 50 ++ "...")
              match c.typeText reply with
              | .error e => (log2, some e)
              | .ok _ =>
                let log3 := { log2 with typed := log2.typed ++ [reply] }
                match c.historyAdd text reply "context_reply" with
                | .error e => (log3, some e)
                | .ok _ =>
                  ({ log3 with history := log3.history ++ [(text, reply, "context_reply")] }, none)
      | none => (log0, none)

/-- `VibeLocal._process_audio` with its `except Exception` boundary: a
normal return yields the body's log; a raised exception `e` is caught and
surfaced as one final notification `"Error: "` followed by the first 50
characters of the message. -/
def processAudioLog (c : Collaborators) (audioData : List ℚ)
    (action : Option HotkeyAction) : PipelineLog :=
  let r := processAudioBody c audioData action
  match r.2 with
  | none => r.1
  | some e => r.1.notify ("Error: " ++ strTake e 50)

/-- State of the `VibeLocal` coordinator (main.py): `self._current_action`,
the `PushToTalkRecorder`, the tray recording indicator, the notifications
issued directly by `_handle_hotkey`, the `_process_audio` worker threads
spawned so far (their `(audio_data, action)` arguments, in spawn order),
and how many of those workers have not yet finished (`inflight`). -/
structure VibeLocalState where
  currentAction : Option HotkeyAction
  recorder : PushToTalkRecorder
  trayRecording : Bool
  notifications : List String
  pipelines : List (List ℚ × Option HotkeyAction)
  inflight : Nat
deriving DecidableEq

/-- The `action_names` message chosen by the press branch of
`_handle_hotkey`. -/
def actionName : HotkeyAction → String
  | .transcribe => "Recording..."
  | .rewrite => "Recording rewrite instruction..."
  | .contextReply => "Recording reply intent..."

/-- `VibeLocal._handle_hotkey` (main.py).  Press branch: unconditionally
store the event's action in `self._current_action`, call
`self._recorder.press()`, mark the tray as recording and notify the
action-specific "Recording..." message.  Release branch: clear the tray
indicator, call `self._recorder.release()`, and if it returned audio of
positive length spawn a daemon thread running
`_process_audio(audio_data, self._current_action)` (fire-and-forget: the
coordinator never joins it); finally clear `self._current_action`. -/
def handleHotkey (s : VibeLocalState) (event : HotkeyEvent) : VibeLocalState :=
  if event.pressed then
    { s with currentAction := some event.action,
             recorder := s.recorder.press,
             trayRecording := true,
             notifications := s.notifications ++ [actionName event.action] }
  else
    let r := s.recorder.release
    match r.2 with
    | some a =>
      if 0 < a.length then
        { s with recorder := r.1, trayRecording := false,
                 pipelines := s.pipelines ++ [(a, s.currentAction)],
                 inflight := s.inflight + 1,
                 currentAction := none }
      else
        { s with recorder := r.1, trayRecording := false, currentAction := none }
    | none =>
        { s with recorder := r.1, trayRecording := false, currentAction := none }

/-- The events the coordinator's state reacts to: a hotkey event from the
listener, a frame delivered by the sounddevice callback, or a spawned
`_process_audio` worker thread finishing. -/
inductive SysEvent
  | hotkey (e : HotkeyEvent)
  | audioFrame (f : Frame)
  | pipelineDone

/-- One system step: dispatch a `SysEvent` against the coordinator state. -/
def sysStep (s : VibeLocalState) : SysEvent → VibeLocalState
  | .hotkey e => handleHotkey s e
  | .audioFrame f =>
      { s with recorder := { s.recorder with recorder := s.recorder.recorder.audioCallback f } }
  | .pipelineDone => { s with inflight := s.inflight - 1 }

/-- The coordinator's initial state, as built by `VibeLocal.__init__`. -/
def initState : VibeLocalState :=
  { currentAction := none,
    recorder := { recorder := { recording := false, frames := [] },
                  isActive := false, startCalls := 0, stopCalls := 0 },
    trayRecording := false, notifications := [], pipelines := [], inflight := 0 }

/-- Run the coordinator over a sequence of system events from the initial
state. -/
def coordRun (events : List SysEvent) : VibeLocalState :=
  events.foldl sysStep initState

/-- All notifications observable for a run: those issued by
`_handle_hotkey` itself followed by those of every spawned
`_process_audio` worker (each worker's notifications in order). -/
def allNotifications (c : Collaborators) (s : VibeLocalState) : List String :=
  s.notifications ++ (s.pipelines.map fun p => (processAudioLog c p.1 p.2).notifications).flatten

/-- A concrete collaborator assignment used to evaluate runs: the engine
hears "hello world", text transformations are identities, selection and
clipboard are empty, injection and history succeed. -/
def sampleCollabs : Collaborators :=
  { engine := ⟨fun _ => .ok ["hello world"]⟩,
    improveTranscription := fun t => .ok t,
    rewriteText := fun s _ => .ok s,
    contextReplyText := fun cx _ => .ok cx,
    getSelection := .ok "",
    getClipboard := .ok "",
    typeText := fun _ => .ok (),
    historyAdd := fun _ _ _ => .ok () }

/-- Like `sampleCollabs` but the engine hears only silence: the single
segment text is empty, so the joined transcription is empty. -/
def silentCollabs : Collaborators :=
  { sampleCollabs with engine := ⟨fun _ => .ok [""]⟩ }

/-- Like `sampleCollabs` but with text in the clipboard and an engine that
hears a rewrite instruction; the selection stays empty. -/
def rewriteCollabs : Collaborators :=
  { sampleCollabs with getClipboard := .ok "ctx", engine := ⟨fun _ => .ok ["fix it"]⟩ }

/-- Like `sampleCollabs` but the AI cleanup step raises an exception whose
message is longer than 50 characters. -/
def failingMsg : String :=
  "ollama connection refused while generating the cleanup completion"

def failingCollabs : Collaborators :=
  { sampleCollabs with improveTranscription := fun _ => Except.error failingMsg }

/-- A press call while a chord is already active changes nothing and emits
nothing: the press branch requires `self._active_hotkey is None` and the
release branch requires `not is_press`. -/
theorem checkHotkeys_press_active {K : Type} [DecidableEq K] (pressed : Finset K)
    (tbl : List (HotkeyAction × Finset K)) (a : HotkeyAction) :
    checkHotkeys pressed true tbl (some a) = (some a, []) := by
  induction tbl with
  | nil => rfl
  | cons hd rest ih =>
    obtain ⟨action, keys⟩ := hd
    by_cases h : keys ⊆ pressed <;> simp [checkHotkeys, h, ih]

/-- A release call with no active chord changes nothing and emits
nothing. -/
theorem checkHotkeys_release_none {K : Type} [DecidableEq K] (pressed : Finset K)
    (tbl : List (HotkeyAction × Finset K)) :
    checkHotkeys pressed false tbl none = (none, []) := by
  induction tbl with
  | nil => rfl
  | cons hd rest ih =>
    obtain ⟨action, keys⟩ := hd
    by_cases h : keys ⊆ pressed <;> simp [checkHotkeys, h, ih]

/-- A press call with no active chord activates exactly the first
configured chord whose key set is held, and emits its pressed event;
if none is satisfied it does nothing. -/
theorem checkHotkeys_press_none {K : Type} [DecidableEq K] (pressed : Finset K)
    (tbl : List (HotkeyAction × Finset K)) :
    checkHotkeys pressed true tbl none =
      match tbl.find? (fun q => decide (q.2 ⊆ pressed)) with
      | some p => (some p.1, [⟨p.1, true⟩])
      | none => (none, []) := by
  induction tbl with
  | nil => rfl
  | cons hd rest ih =>
    obtain ⟨action, keys⟩ := hd
    by_cases h : keys ⊆ pressed
    · simp [checkHotkeys, h, checkHotkeys_press_active]
    · simp [checkHotkeys, h, ih]

/-- A release call while chord `a` is active and every key set configured
for `a` is still fully held changes nothing and emits nothing (the active
chord is sticky). -/
theorem checkHotkeys_release_held {K : Type} [DecidableEq K] (pressed : Finset K)
    (tbl : List (HotkeyAction × Finset K)) (a : HotkeyAction)
    (hall : ∀ kb, (a, kb) ∈ tbl → kb ⊆ pressed) :
    checkHotkeys pressed false tbl (some a) = (some a, []) := by
  induction tbl with
  | nil => rfl
  | cons hd rest ih =>
    obtain ⟨action, keys⟩ := hd
    have hrest : ∀ kb, (a, kb) ∈ rest → kb ⊆ pressed :=
      fun kb hm => hall kb (List.mem_cons_of_mem _ hm)
    by_cases h : keys ⊆ pressed
    · simp [checkHotkeys, h, ih hrest]
    · have hne : a ≠ action := by
        rintro rfl
        exact h (hall keys (List.mem_cons_self _ _))
      simp [checkHotkeys, h, hne, ih hrest]

/-- A release call while chord `a` is active and no key set configured for
`a` is fully held any more deactivates `a` and emits exactly its released
event. -/
theorem checkHotkeys_release_lost {K : Type} [DecidableEq K] (pressed : Finset K)
    (tbl : List (HotkeyAction × Finset K)) (a : HotkeyAction) (ka : Finset K)
    (hmem : (a, ka) ∈ tbl) (hnone : ∀ kb, (a, kb) ∈ tbl → ¬ kb ⊆ pressed) :
    checkHotkeys pressed false tbl (some a) = (none, [⟨a, false⟩]) := by
  induction tbl with
  | nil => cases hmem
  | cons hd rest ih =>
    obtain ⟨action, keys⟩ := hd
    by_cases heq : action = a
    · subst heq
      have h : ¬ keys ⊆ pressed := hnone keys (List.mem_cons_self _ _)
      simp [checkHotkeys, h, checkHotkeys_release_none]
    · have hmem' : (a, ka) ∈ rest := by
        rcases List.mem_cons.mp hmem with h | h
        · cases h; exact absurd rfl heq
        · exact h
      have hrest : ∀ kb, (a, kb) ∈ rest → ¬ kb ⊆ pressed :=
        fun kb hm => hnone kb (List.mem_cons_of_mem _ hm)
      have hne : a ≠ action := fun h => heq h.symm
      by_cases h : keys ⊆ pressed
      · simp [checkHotkeys, h, ih hmem' hrest]
      · simp [checkHotkeys, h, hne, ih hmem' hrest]

/-- Shape of a release call's output: it emits nothing, or exactly the
released event of the previously active chord. -/
theorem checkHotkeys_release_shape {K : Type} [DecidableEq K] (pressed : Finset K)
    (tbl : List (HotkeyAction × Finset K)) (act : Option HotkeyAction) :
    (checkHotkeys pressed false tbl act).2 = [] ∨
      ∃ a, act = some a ∧ (checkHotkeys pressed false tbl act).2 = [⟨a, false⟩] := by
  induction tbl generalizing act with
  | nil => exact Or.inl rfl
  | cons hd rest ih =>
    obtain ⟨action, keys⟩ := hd
    by_cases h : keys ⊆ pressed
    · simpa [checkHotkeys, h] using ih act
    · by_cases ha : act = some action
      · subst ha
        right
        exact ⟨action, rfl, by simp [checkHotkeys, h, checkHotkeys_release_none]⟩
      · simpa [checkHotkeys, h, ha] using ih act

/-- Shape of a press call's output: it emits nothing, or exactly one
pressed event (and only from the idle state). -/
theorem checkHotkeys_press_shape {K : Type} [DecidableEq K] (pressed : Finset K)
    (tbl : List (HotkeyAction × Finset K)) (act : Option HotkeyAction) :
    (checkHotkeys pressed true tbl act).2 = [] ∨
      ∃ a, act = none ∧ (checkHotkeys pressed true tbl act).2 = [⟨a, true⟩] := by
  cases act with
  | some a => simp [checkHotkeys_press_active]
  | none =>
    rw [checkHotkeys_press_none]
    cases h : tbl.find? (fun q => decide (q.2 ⊆ pressed)) with
    | none => exact Or.inl rfl
    | some p => exact Or.inr ⟨p.1, rfl, rfl⟩

/-- C4: for every chord table, held-key set and matcher state, one call of
`_check_hotkeys` (one key-state change) emits at most one event — in
particular never two pressed events; while a chord is active no pressed
event is ever emitted (press calls are complete no-ops, and the active
chord survives any call made while one of its configured key sets is still
fully held — stickiness under extra keys or other satisfied chords); the
active chord is cleared, with exactly its released event, by the first
release call at which none of its configured key sets is fully held; and
from the idle state a press call deterministically activates the first
configured chord in table order whose key set is held.  The matcher state
is a single `Option HotkeyAction`, so at most one chord is active by
construction. -/
theorem C4_single_active_chord {K : Type} [DecidableEq K]
    (pressed : Finset K) (tbl : List (HotkeyAction × Finset K))
    (act : Option HotkeyAction) (isPress : Bool) :
    (checkHotkeys pressed isPress tbl act).2.length ≤ 1
    ∧ (∀ a, act = some a →
        ∀ e ∈ (checkHotkeys pressed isPress tbl act).2, e.pressed = false)
    ∧ (∀ a, act = some a → isPress = true →
        checkHotkeys pressed isPress tbl act = (some a, []))
    ∧ (∀ a, act = some a → (∀ kb, (a, kb) ∈ tbl → kb ⊆ pressed) →
        checkHotkeys pressed isPress tbl act = (some a, []))
    ∧ (∀ a ka, act = some a → isPress = false → (a, ka) ∈ tbl →
        (∀ kb, (a, kb) ∈ tbl → ¬ kb ⊆ pressed) →
        checkHotkeys pressed isPress tbl act = (none, [⟨a, false⟩]))
    ∧ (act = none → isPress = true →
        ∀ p, tbl.find? (fun q => decide (q.2 ⊆ pressed)) = some p →
          checkHotkeys pressed isPress tbl act = (some p.1, [⟨p.1, true⟩])) := by
  refine ⟨?_, ?_, ?_, ?_, ?_, ?_⟩
  · cases isPress with
    | true =>
      rcases checkHotkeys_press_shape pressed tbl act with h | ⟨a, _, h⟩ <;> simp [h]
    | false =>
      rcases checkHotkeys_release_shape pressed tbl act with h | ⟨a, _, h⟩ <;> simp [h]
  · rintro a rfl e he
    cases isPress with
    | true => rw [checkHotkeys_press_active] at he; cases he
    | false =>
      rcases checkHotkeys_release_shape pressed tbl (some a) with h | ⟨b, hb, h⟩
      · rw [h] at he; cases he
      · rw [h] at he
        cases List.mem_singleton.mp he
        rfl
  · rintro a rfl rfl
    exact checkHotkeys_press_active pressed tbl a
  · rintro a rfl hall
    cases isPress with
    | true => exact checkHotkeys_press_active pressed tbl a
    | false => exact checkHotkeys_release_held pressed tbl a hall
  · rintro a ka rfl rfl hmem hnone
    exact checkHotkeys_release_lost pressed tbl a ka hmem hnone
  · rintro rfl rfl p hp
    rw [checkHotkeys_press_none, hp]

/-- Witness for C4: with chords Transcribe = {1,2} and Rewrite = {1,2,3}
and keys {1,2,3} held, a press call while Transcribe is active changes
nothing and emits nothing even though Rewrite's chord is fully held. -/
theorem C4_single_active_chord_witness :
    checkHotkeys ({1, 2, 3} : Finset Nat) true
        [(HotkeyAction.transcribe, {1, 2}), (HotkeyAction.rewrite, {1, 2, 3})]
        (some HotkeyAction.transcribe)
      = (some HotkeyAction.transcribe, []) :=
  (C4_single_active_chord ({1, 2, 3} : Finset Nat)
      [(HotkeyAction.transcribe, {1, 2}), (HotkeyAction.rewrite, {1, 2, 3})]
      (some HotkeyAction.transcribe) true).2.2.1 HotkeyAction.transcribe rfl rfl

/-- `_normalize_key` is idempotent: a key it returns is its own normal
form. -/
theorem normalizeKey_idem (k c : PKey) (h : normalizeKey k = some c) :
    normalizeKey c = some c := by
  cases k <;> cases c <;> simp_all [normalizeKey]

/-- In the pynput listener, pressing any key behaves exactly like pressing
its normal form: the two variants of a modifier class are
interchangeable. -/
theorem onPress_normalized (tbl : List (HotkeyAction × Finset PKey))
    (s : PynputState) (key c : PKey) (h : normalizeKey key = some c) :
    onPress tbl s key = onPress tbl s c := by
  simp [onPress, h, normalizeKey_idem key c h]

/-- Release counterpart of `onPress_normalized`. -/
theorem onRelease_normalized (tbl : List (HotkeyAction × Finset PKey))
    (s : PynputState) (key c : PKey) (h : normalizeKey key = some c) :
    onRelease tbl s key = onRelease tbl s c := by
  simp [onRelease, h, normalizeKey_idem key c h]

/-- Counterexample to C2: the Linux evdev listener applies no left/right
normalization.  With the chord Transcribe = {29 (KEY_LEFTCTRL), 30
(KEY_A)}, pressing KEY_RIGHTCTRL (code 97) puts the raw code 97 — not the
canonical 29 — into the held-key set, and then pressing KEY_A does not
activate the chord, although the same gesture with the left Ctrl does. -/
theorem C2_counterexample :
    ((evdevKeyEvent [(HotkeyAction.transcribe, {29, 30})]
        (evdevKeyEvent [(HotkeyAction.transcribe, {29, 30})] ⟨∅, none⟩ 97 1).1
        30 1).1.pressedKeys = {97, 30}
      ∧ (evdevKeyEvent [(HotkeyAction.transcribe, {29, 30})]
          (evdevKeyEvent [(HotkeyAction.transcribe, {29, 30})] ⟨∅, none⟩ 97 1).1
          30 1).1.activeHotkey = none)
    ∧ (evdevKeyEvent [(HotkeyAction.transcribe, {29, 30})]
        (evdevKeyEvent [(HotkeyAction.transcribe, {29, 30})] ⟨∅, none⟩ 29 1).1
        30 1).1.activeHotkey = some HotkeyAction.transcribe := by
  decide

/-- C2 as amended: only the pynput (Windows/macOS) listener normalizes —
each modifier class with left/right variants collapses to one canonical
identity (left Ctrl/Shift/Alt, `cmd` for Super), every other key maps to
itself, and pressing or releasing a variant behaves exactly like its
canonical form, so a chord configured with the canonical modifier
activates on either physical side; the Linux evdev listener keeps raw key
codes unnormalized (see the counterexample). -/
theorem C2_pynput_normalization :
    (normalizeKey .ctrl_l = some .ctrl_l ∧ normalizeKey .ctrl_r = some .ctrl_l)
    ∧ (normalizeKey .shift_l = some .shift_l ∧ normalizeKey .shift_r = some .shift_l)
    ∧ (normalizeKey .alt_l = some .alt_l ∧ normalizeKey .alt_r = some .alt_l)
    ∧ (normalizeKey .cmd = some .cmd ∧ normalizeKey .cmd_r = some .cmd)
    ∧ (∀ n, normalizeKey (.otherKey n) = some (.otherKey n))
    ∧ (∀ c, normalizeKey (.keyCode c) = some (.keyCode c))
    ∧ (∀ (tbl : List (HotkeyAction × Finset PKey)) (s : PynputState) (key c : PKey),
        normalizeKey key = some c →
        onPress tbl s key = onPress tbl s c ∧ onRelease tbl s key = onRelease tbl s c)
    ∧ ((onPress [(HotkeyAction.transcribe, {PKey.ctrl_l, .keyCode 'a'})]
          (onPress [(HotkeyAction.transcribe, {PKey.ctrl_l, .keyCode 'a'})]
            ⟨∅, none⟩ .ctrl_r).1 (.keyCode 'a')).1.activeHotkey
          = some HotkeyAction.transcribe
      ∧ (onPress [(HotkeyAction.transcribe, {PKey.ctrl_l, .keyCode 'a'})]
          (onPress [(HotkeyAction.transcribe, {PKey.ctrl_l, .keyCode 'a'})]
            ⟨∅, none⟩ .ctrl_l).1 (.keyCode 'a')).1.activeHotkey
          = some HotkeyAction.transcribe) := by
  refine ⟨⟨rfl, rfl⟩, ⟨rfl, rfl⟩, ⟨rfl, rfl⟩, ⟨rfl, rfl⟩,
    fun n => rfl, fun c => rfl, ?_, by decide⟩
  intro tbl s key c h
  exact ⟨onPress_normalized tbl s key c h, onRelease_normalized tbl s key c h⟩

/-- Witness for C2's amended theorem: pressing right-Ctrl in the pynput
listener behaves exactly like pressing left-Ctrl. -/
theorem C2_pynput_normalization_witness :
    onPress [] ⟨∅, none⟩ PKey.ctrl_r = onPress [] ⟨∅, none⟩ PKey.ctrl_l ∧
    onRelease [] ⟨∅, none⟩ PKey.ctrl_r = onRelease [] ⟨∅, none⟩ PKey.ctrl_l :=
  C2_pynput_normalization.2.2.2.2.2.2.1 [] ⟨∅, none⟩ PKey.ctrl_r PKey.ctrl_l rfl

/-- Counterexample to C5: the pynput tracker normalizes before mutating the
set, so pressing right-Ctrl while left-Ctrl is already held, then releasing
right-Ctrl, drops the shared canonical identity: the held set was
{ctrl_l} before the press and is empty after the release. -/
theorem C5_counterexample :
    ((onPress ([] : List (HotkeyAction × Finset PKey)) ⟨∅, none⟩ .ctrl_l).1.pressedKeys
        = {PKey.ctrl_l})
    ∧ (onRelease ([] : List (HotkeyAction × Finset PKey))
        (onPress [] (onPress [] ⟨∅, none⟩ .ctrl_l).1 .ctrl_r).1
        .ctrl_r).1.pressedKeys
      ≠ (onPress ([] : List (HotkeyAction × Finset PKey)) ⟨∅, none⟩ .ctrl_l).1.pressedKeys := by
  decide

/-- C5 as amended: the held-key set returns to its pre-press value after a
press of K followed by a release of K whenever K's (normalized) identity
was not already held; if it was already held — duplicate press, key
auto-repeat, or the other physical variant of the same modifier class —
the release removes the identity instead. -/
theorem C5_roundtrip_not_held :
    (∀ (tbl : List (HotkeyAction × Finset Nat)) (s : EvdevState) (k : Nat),
        k ∉ s.pressedKeys →
        ((evdevKeyEvent tbl (evdevKeyEvent tbl s k 1).1 k 0).1).pressedKeys
          = s.pressedKeys)
    ∧ (∀ (tbl : List (HotkeyAction × Finset PKey)) (s : PynputState) (key c : PKey),
        normalizeKey key = some c → c ∉ s.pressedKeys →
        ((onRelease tbl (onPress tbl s key).1 key).1).pressedKeys = s.pressedKeys) := by
  constructor
  · intro tbl s k hk
    simp [evdevKeyEvent, Finset.erase_insert hk]
  · intro tbl s key c h hk
    simp [onPress, onRelease, h, Finset.erase_insert hk]

/-- Witness for C5's amended theorem: pressing and releasing KEY_A (code
30) from the empty held set restores the empty set. -/
theorem C5_roundtrip_not_held_witness :
    ((evdevKeyEvent [] (evdevKeyEvent [] ⟨∅, none⟩ 30 1).1 30 0).1).pressedKeys
      = (∅ : Finset Nat) :=
  C5_roundtrip_not_held.1 [] ⟨∅, none⟩ 30 (by decide)

/-- C6: `AudioRecorder.stop` returns the per-sample channel average of the
frames concatenated in arrival order — appending further frames appends
their down-mixed samples after the earlier ones — a single one-channel row
is returned unchanged and a two-channel row becomes the average of its two
samples; with zero accumulated frames it returns the empty buffer (and it
always clears the recording flag).  Totality of the Lean function reflects
that no branch raises. -/
theorem C6_stop_flatten_monomix :
    (∀ b : Bool, (AudioRecorder.stop ⟨b, []⟩).2 = [])
    ∧ (∀ r : AudioRecorder, (r.stop).2 = (r.frames.flatten).map rowMean)
    ∧ (∀ fs gs : List Frame, stopData (fs ++ gs) = stopData fs ++ stopData gs)
    ∧ (∀ r : AudioRecorder, (r.stop).1.recording = false)
    ∧ (∀ x : ℚ, rowMean [x] = x)
    ∧ (∀ x y : ℚ, rowMean [x, y] = (x + y) / 2) := by
  have hdata : ∀ frames : List Frame, stopData frames = (frames.flatten).map rowMean := by
    intro frames
    by_cases h : frames = [] <;> simp [stopData, h]
  refine ⟨?_, ?_, ?_, ?_, ?_, ?_⟩
  · intro b; simp [AudioRecorder.stop, stopData]
  · intro r; simp [AudioRecorder.stop, hdata]
  · intro fs gs; simp [hdata]
  · intro r; rfl
  · intro x; simp [rowMean]
  · intro x y
    simp [rowMean]

/-- C7: `PushToTalkRecorder.press` while already active is a complete
no-op (the underlying capture is started at most once per cycle), and
`PushToTalkRecorder.release` while not active — in particular before any
press — returns `None` and leaves the state untouched, so `stop()` is not
called (the stop-call counter is unchanged); totality reflects that
neither path raises. -/
theorem C7_press_release_guards (p : PushToTalkRecorder) :
    (p.isActive = true → p.press = p)
    ∧ (p.isActive = false → p.release = (p, none)) := by
  constructor
  · intro h; simp [PushToTalkRecorder.press, h]
  · intro h; simp [PushToTalkRecorder.release, h]

/-- Witness for C7: a concrete active recorder is unchanged by `press`,
and the freshly constructed (inactive) recorder answers `release` with
`None` and no state change. -/
theorem C7_press_release_guards_witness :
    PushToTalkRecorder.press ⟨⟨true, []⟩, true, 1, 0⟩ = ⟨⟨true, []⟩, true, 1, 0⟩
    ∧ PushToTalkRecorder.release ⟨⟨false, []⟩, false, 0, 0⟩
        = (⟨⟨false, []⟩, false, 0, 0⟩, none) :=
  ⟨(C7_press_release_guards ⟨⟨true, []⟩, true, 1, 0⟩).1 rfl,
   (C7_press_release_guards ⟨⟨false, []⟩, false, 0, 0⟩).2 rfl⟩

/-- Counterexample to C1: `_handle_hotkey` has no not-Idle guard on the
press branch.  After press(Transcribe) is accepted, press(Rewrite) without
an intervening release overwrites the stored current action; and because
each release with non-empty audio spawns a fire-and-forget worker thread,
two press/record/release cycles leave two pipelines in flight when the
first worker has not yet finished. -/
theorem C1_counterexample :
    (coordRun [.hotkey ⟨.transcribe, true⟩, .hotkey ⟨.rewrite, true⟩]).currentAction
        = some HotkeyAction.rewrite
    ∧ (coordRun [.hotkey ⟨.transcribe, true⟩, .audioFrame [[1]],
        .hotkey ⟨.transcribe, false⟩, .hotkey ⟨.transcribe, true⟩,
        .audioFrame [[1]], .hotkey ⟨.transcribe, false⟩]).inflight = 2 := by
  constructor
  · decide
  · decide

/-- C1 as amended: a press received while the recorder is active does not
start a new capture (the recorder state, including its start-call count,
is unchanged) and spawns no pipeline (the spawned-pipeline list and the
in-flight count are unchanged) — but it is not ignored: it overwrites the
stored current action with the new action.  Serialization of pipelines is
not enforced by the coordinator (see the counterexample); it relies on the
listener's at-most-one-active-chord invariant. -/
theorem C1_press_while_active (s : VibeLocalState) (a : HotkeyAction)
    (h : s.recorder.isActive = true) :
    (handleHotkey s ⟨a, true⟩).recorder = s.recorder
    ∧ (handleHotkey s ⟨a, true⟩).pipelines = s.pipelines
    ∧ (handleHotkey s ⟨a, true⟩).inflight = s.inflight
    ∧ (handleHotkey s ⟨a, true⟩).currentAction = some a := by
  refine ⟨?_, rfl, rfl, rfl⟩
  simp [handleHotkey, PushToTalkRecorder.press, h]

/-- Witness for C1's amended theorem at a concrete recording state. -/
theorem C1_press_while_active_witness :
    (handleHotkey ⟨some .transcribe, ⟨⟨true, []⟩, true, 1, 0⟩, true, [], [], 0⟩
        ⟨HotkeyAction.rewrite, true⟩).recorder = ⟨⟨true, []⟩, true, 1, 0⟩
    ∧ (handleHotkey ⟨some .transcribe, ⟨⟨true, []⟩, true, 1, 0⟩, true, [], [], 0⟩
        ⟨HotkeyAction.rewrite, true⟩).pipelines = []
    ∧ (handleHotkey ⟨some .transcribe, ⟨⟨true, []⟩, true, 1, 0⟩, true, [], [], 0⟩
        ⟨HotkeyAction.rewrite, true⟩).inflight = 0
    ∧ (handleHotkey ⟨some .transcribe, ⟨⟨true, []⟩, true, 1, 0⟩, true, [], [], 0⟩
        ⟨HotkeyAction.rewrite, true⟩).currentAction = some HotkeyAction.rewrite :=
  C1_press_while_active ⟨some .transcribe, ⟨⟨true, []⟩, true, 1, 0⟩, true, [], [], 0⟩
    HotkeyAction.rewrite rfl

/-- Counterexample to C3: a release whose capture produced no frames spawns
no pipeline and returns to Idle, but the user is never shown the "No
speech detected" notification the claim requires — the only notification
of the whole run is the press branch's "Recording...". -/
theorem C3_counterexample :
    (coordRun [.hotkey ⟨.transcribe, true⟩, .hotkey ⟨.transcribe, false⟩]).pipelines = []
    ∧ (coordRun [.hotkey ⟨.transcribe, true⟩, .hotkey ⟨.transcribe, false⟩]).currentAction
        = none
    ∧ allNotifications sampleCollabs
        (coordRun [.hotkey ⟨.transcribe, true⟩, .hotkey ⟨.transcribe, false⟩])
      = ["Recording..."] := by
  refine ⟨by decide, by decide, by decide⟩

/-- C3 as amended: when a release finds an empty capture buffer the
coordinator skips the pipeline entirely — no worker is spawned (hence no
transcription runs), no notification at all is issued by the release
branch — and it returns to Idle; the "No speech detected" notification is
issued only inside a spawned pipeline, when transcription of a non-empty
buffer yields empty or whitespace text. -/
theorem C3_empty_release_skips_pipeline (s : VibeLocalState) (a : HotkeyAction)
    (h : s.recorder.recorder.frames = []) :
    ((handleHotkey s ⟨a, false⟩).pipelines = s.pipelines
      ∧ (handleHotkey s ⟨a, false⟩).inflight = s.inflight
      ∧ (handleHotkey s ⟨a, false⟩).currentAction = none
      ∧ (handleHotkey s ⟨a, false⟩).notifications = s.notifications)
    ∧ (∀ (c : Collaborators) (audioData : List ℚ) (action : Option HotkeyAction)
        (t : String), (transcribe c.engine audioData).1 = .ok t → strTrim t = "" →
        processAudioLog c audioData action
          = ⟨["Transcribing...", "No speech detected"], [], []⟩) := by
  constructor
  · by_cases ha : s.recorder.isActive <;>
      simp [handleHotkey, PushToTalkRecorder.release, AudioRecorder.stop, stopData, h, ha]
  · intro c audioData action t htr htrim
    simp [processAudioLog, processAudioBody, htr, htrim, PipelineLog.notify]

/-- Witness for C3's amended theorem: the state right after a press (one
start call, no frames yet) together with the silent collaborators. -/
theorem C3_empty_release_skips_pipeline_witness :
    ((handleHotkey ⟨some .transcribe, ⟨⟨true, []⟩, true, 1, 0⟩, true, [], [], 0⟩
        ⟨HotkeyAction.transcribe, false⟩).pipelines = []
      ∧ (handleHotkey ⟨some .transcribe, ⟨⟨true, []⟩, true, 1, 0⟩, true, [], [], 0⟩
          ⟨HotkeyAction.transcribe, false⟩).inflight = 0
      ∧ (handleHotkey ⟨some .transcribe, ⟨⟨true, []⟩, true, 1, 0⟩, true, [], [], 0⟩
          ⟨HotkeyAction.transcribe, false⟩).currentAction = none
      ∧ (handleHotkey ⟨some .transcribe, ⟨⟨true, []⟩, true, 1, 0⟩, true, [], [], 0⟩
          ⟨HotkeyAction.transcribe, false⟩).notifications = [])
    ∧ processAudioLog silentCollabs [1] (some HotkeyAction.transcribe)
        = ⟨["Transcribing...", "No speech detected"], [], []⟩ :=
  ⟨(C3_empty_release_skips_pipeline
      ⟨some .transcribe, ⟨⟨true, []⟩, true, 1, 0⟩, true, [], [], 0⟩
      HotkeyAction.transcribe rfl).1,
   (C3_empty_release_skips_pipeline
      ⟨some .transcribe, ⟨⟨true, []⟩, true, 1, 0⟩, true, [], [], 0⟩
      HotkeyAction.transcribe rfl).2 silentCollabs [1] (some HotkeyAction.transcribe)
      "" rfl rfl⟩

/-- C8: in the Rewrite branch of `_process_audio`, a non-empty selection is
used as the rewrite source; an empty selection falls back to the clipboard;
and when both are empty the pipeline notifies "No text selected to
rewrite", injects nothing, writes no history entry, and returns normally
(so the coordinator is back to Idle). -/
theorem C8_rewrite_selection_fallback (c : Collaborators) (audioData : List ℚ)
    (text cb t : String)
    (htr : (transcribe c.engine audioData).1 = .ok text)
    (hne : ¬ strTrim text = "") :
    (∀ sel, c.getSelection = .ok sel → sel ≠ "" → c.rewriteText sel text = .ok t →
      c.typeText t = .ok () → c.historyAdd text t "rewrite" = .ok () →
      processAudioLog c audioData (some .rewrite)
        = ⟨["Transcribing...", "Rewriting...", "Typing: " ++ strTake t 50 ++ "..."],
           [t], [(text, t, "rewrite")]⟩)
    ∧ (c.getSelection = .ok "" → c.getClipboard = .ok cb → cb ≠ "" →
      c.rewriteText cb text = .ok t → c.typeText t = .ok () →
      c.historyAdd text t "rewrite" = .ok () →
      processAudioLog c audioData (some .rewrite)
        = ⟨["Transcribing...", "Rewriting...", "Typing: " ++ strTake t 50 ++ "..."],
           [t], [(text, t, "rewrite")]⟩)
    ∧ (c.getSelection = .ok "" → c.getClipboard = .ok "" →
      processAudioLog c audioData (some .rewrite)
        = ⟨["Transcribing...", "No text selected to rewrite"], [], []⟩) := by
  refine ⟨?_, ?_, ?_⟩
  · intro sel h1 h2 h3 h4 h5
    simp [processAudioLog, processAudioBody, htr, hne, h1, h2, h3, h4, h5,
      PipelineLog.notify]
  · intro h1 h2 h3 h4 h5 h6
    simp [processAudioLog, processAudioBody, htr, hne, h1, h2, h3, h4, h5, h6,
      PipelineLog.notify]
  · intro h1 h2
    simp [processAudioLog, processAudioBody, htr, hne, h1, h2, PipelineLog.notify]

/-- Witness for C8 (clipboard-fallback case): empty selection, clipboard
"ctx", instruction "fix it" heard by the engine. -/
theorem C8_rewrite_selection_fallback_witness :
    processAudioLog rewriteCollabs [1] (some HotkeyAction.rewrite)
      = ⟨["Transcribing...", "Rewriting...", "Typing: " ++ strTake "ctx" 50 ++ "..."],
         ["ctx"], [("fix it", "ctx", "rewrite")]⟩ :=
  (C8_rewrite_selection_fallback rewriteCollabs [1] "fix it" "ctx" "ctx"
      rfl (by decide)).2.1 rfl rfl (by decide) rfl rfl rfl

/-- C9: an exception `e` raised by any collaborator inside
`_process_audio` is caught at the pipeline boundary and surfaced as the
final notification `"Error: "` plus at most the first 50 characters of the
message (never more than 57 characters in total); a normal body run is
returned unchanged (the function is total either way — nothing propagates
back to the event-detection path); and the coordinator clears
`current_action` on every release, so it is back to Idle whether the
spawned pipeline succeeds or fails. -/
theorem C9_pipeline_exception_boundary (c : Collaborators) (audioData : List ℚ)
    (action : Option HotkeyAction) :
    (∀ e, (processAudioBody c audioData action).2 = some e →
      (processAudioLog c audioData action).notifications.getLast?
          = some ("Error: " ++ strTake e 50)
        ∧ ("Error: " ++ strTake e 50).length ≤ 57)
    ∧ ((processAudioBody c audioData action).2 = none →
        processAudioLog c audioData action = (processAudioBody c audioData action).1)
    ∧ (∀ (s : VibeLocalState) (a : HotkeyAction),
        (handleHotkey s ⟨a, false⟩).currentAction = none) := by
  refine ⟨?_, ?_, ?_⟩
  · intro e he
    constructor
    · simp [processAudioLog, he, PipelineLog.notify]
    · have h1 : (strTake e 50).length ≤ 50 := by
        show (e.data.take 50).length ≤ 50
        simp [List.length_take]
      have h2 : ("Error: " ++ strTake e 50).length
          = "Error: ".length + (strTake e 50).length := String.length_append _ _
      have h3 : "Error: ".length = 7 := by decide
      omega
  · intro he
    simp [processAudioLog, he]
  · intro s a
    by_cases ha : s.recorder.isActive <;>
      by_cases hf : 0 < (stopData s.recorder.recorder.frames).length <;>
        simp [handleHotkey, PushToTalkRecorder.release, AudioRecorder.stop, ha, hf]

/-- Witness for C9: the cleanup step throws a 64-character message; the
run ends with the truncated error notification. -/
theorem C9_pipeline_exception_boundary_witness :
    (processAudioLog failingCollabs [1] (some HotkeyAction.transcribe)).notifications.getLast?
        = some ("Error: " ++ strTake failingMsg 50)
      ∧ ("Error: " ++ strTake failingMsg 50).length ≤ 57 :=
  (C9_pipeline_exception_boundary failingCollabs [1] (some HotkeyAction.transcribe)).1
    failingMsg (by decide)

/-- C10: `transcribe` on a zero-length audio input returns the empty
string immediately — the engine-interaction count is 0, so the external
speech-to-text engine (model lookup and transcription call) is never
consulted. -/
theorem C10_transcribe_empty_guard (eng : WhisperEngine) :
    transcribe eng [] = (.ok "", 0) := rfl
